import Mathlib

/-!
Verification of the paypal client library's timestamp parser (`paypal_time.go`),
token cache behaviour and the `CaptureAuthorization` endpoint wrapper
(`authorization.go`), as a shallow embedding in Lean.

Timestamps are modelled as explicit calendar records (`GoTime`); the three Go
layout constants become chunk lists interpreted by a parser that mirrors the
relevant cases of Go's `time.Parse`; `PTime.UnmarshalJSON` and `PTime.String`
are translated line by line, including the panic the slice expression
`sdata[1:len(sdata)-1]` triggers on inputs shorter than two bytes.
-/

namespace Paypal

/-- A parsed point in time, as Go's `time.Parse` would produce for the three
layouts used here: wall-clock calendar fields plus a fixed zone offset in
seconds east of UTC (0 when the layout carries no zone information). -/
structure GoTime where
  year : Nat
  month : Nat
  day : Nat
  hour : Nat
  min : Nat
  sec : Nat
  nsec : Nat
  offset : Int
  deriving DecidableEq, Repr

/-- Go's zero `time.Time`: January 1, year 1, 00:00:00 UTC. -/
def zeroGoTime : GoTime :=
  { year := 1, month := 1, day := 1, hour := 0, min := 0, sec := 0, nsec := 0, offset := 0 }

/-- One chunk of a Go time layout string, restricted to the chunks occurring in
the three layout constants of `paypal_time.go`. -/
inductive Chunk where
  | lit (c : Char)
  | longYear
  | zeroMonth
  | zeroDay
  | hourNum
  | zeroMinute
  | zeroSecond
  | fracSecond0 (n : Nat)
  | numColonTZ
  deriving DecidableEq, Repr

/-- The three layout constants of `paypal_time.go`, as the format value the
`switch` in `UnmarshalJSON` stores. -/
inductive GoFormat where
  | dateFormatNoDot
  | dateFormat
  | dateFormatWithOffset
  deriving DecidableEq, Repr

/-- Chunks shared by all three layouts: `2006-01-02T15:04:05`. -/
def baseChunks : List Chunk :=
  [.longYear, .lit '-', .zeroMonth, .lit '-', .zeroDay, .lit 'T',
   .hourNum, .lit ':', .zeroMinute, .lit ':', .zeroSecond]

/-- `DateFormatNoDot = "2006-01-02T15:04:05Z"` (the final `Z` is a literal
character for Go, since it is not followed by an offset pattern). -/
def dateFormatNoDotChunks : List Chunk := baseChunks ++ [.lit 'Z']

/-- `DateFormat = "2006-01-02T15:04:05.000Z"`. -/
def dateFormatChunks : List Chunk := baseChunks ++ [.fracSecond0 3, .lit 'Z']

/-- `DateFormatWithOffset = "2006-01-02T15:04:05-07:00"`. -/
def dateFormatWithOffsetChunks : List Chunk := baseChunks ++ [.numColonTZ]

def layoutChunks : GoFormat → List Chunk
  | .dateFormatNoDot => dateFormatNoDotChunks
  | .dateFormat => dateFormatChunks
  | .dateFormatWithOffset => dateFormatWithOffsetChunks

/-- The numeric value of a decimal digit character, if it is one. -/
def charDigit (c : Char) : Option Nat :=
  if c.isDigit then some (c.toNat - 48) else none

/-- Exactly `k` decimal digits, most significant first, as Go reads the
fixed-width numeric fields (`2006`, `01`, `02`, `04`, `05`, `.000`). -/
def takeDigits : Nat → List Char → Option (Nat × List Char)
  | 0, s => some (0, s)
  | _ + 1, [] => none
  | k + 1, c :: s =>
    match charDigit c with
    | none => none
    | some d =>
      match takeDigits k s with
      | none => none
      | some (n, rest) => some (d * 10 ^ k + n, rest)

/-- Go's `getnum(s, false)`, used for the `15` hour field: two digits when the
second character is also a digit, otherwise one. -/
def getnum : List Char → Option (Nat × List Char)
  | [] => none
  | c :: s =>
    match charDigit c with
    | none => none
    | some d =>
      match s with
      | [] => some (d, [])
      | c2 :: s2 =>
        match charDigit c2 with
        | none => some (d, s)
        | some d2 => some (d * 10 + d2, s2)

/-- Interpret a chunk list against the remaining input, mirroring the loop of
Go's `time.Parse` for the chunks above; fails when a chunk does not match or
when input remains after the layout is exhausted. -/
def parseChunks : List Chunk → List Char → GoTime → Option GoTime
  | [], s, t => if s = [] then some t else none
  | ch :: rest, s, t =>
    match ch with
    | .lit c =>
      match s with
      | [] => none
      | d :: s1 => if d = c then parseChunks rest s1 t else none
    | .longYear =>
      match takeDigits 4 s with
      | none => none
      | some (n, s1) => parseChunks rest s1 { t with year := n }
    | .zeroMonth =>
      match takeDigits 2 s with
      | none => none
      | some (n, s1) => parseChunks rest s1 { t with month := n }
    | .zeroDay =>
      match takeDigits 2 s with
      | none => none
      | some (n, s1) => parseChunks rest s1 { t with day := n }
    | .hourNum =>
      match getnum s with
      | none => none
      | some (n, s1) => parseChunks rest s1 { t with hour := n }
    | .zeroMinute =>
      match takeDigits 2 s with
      | none => none
      | some (n, s1) => parseChunks rest s1 { t with min := n }
    | .zeroSecond =>
      match takeDigits 2 s with
      | none => none
      | some (n, s1) => parseChunks rest s1 { t with sec := n }
    | .fracSecond0 n =>
      match s with
      | [] => none
      | c :: s1 =>
        if c = '.' then
          match takeDigits n s1 with
          | none => none
          | some (v, s2) => parseChunks rest s2 { t with nsec := v * 10 ^ (9 - n) }
        else none
    | .numColonTZ =>
      match s with
      | [] => none
      | sgn :: s1 =>
        if sgn = '+' ∨ sgn = '-' then
          match takeDigits 2 s1 with
          | none => none
          | some (hh, s2) =>
            match s2 with
            | ':' :: s3 =>
              match takeDigits 2 s3 with
              | none => none
              | some (mm, s4) =>
                let off : Int := (hh * 3600 + mm * 60 : Nat)
                parseChunks rest s4 { t with offset := if sgn = '-' then -off else off }
            | _ => none
        else none

/-- Go's `isLeap`. -/
def isLeapYear (y : Nat) : Bool :=
  (y % 4 == 0 && y % 100 != 0) || y % 400 == 0

/-- Go's `daysIn(m, year)`. -/
def daysIn (year month : Nat) : Nat :=
  if month = 2 then (if isLeapYear year then 29 else 28)
  else if month = 4 ∨ month = 6 ∨ month = 9 ∨ month = 11 then 30
  else 31

/-- The range checks Go's `time.Parse` applies to the fields of these layouts
(month, day-of-month, hour, minute, second). -/
def validTime (t : GoTime) : Prop :=
  1 ≤ t.month ∧ t.month ≤ 12 ∧
  1 ≤ t.day ∧ t.day ≤ daysIn t.year t.month ∧
  t.hour < 24 ∧ t.min < 60 ∧ t.sec < 60

instance (t : GoTime) : Decidable (validTime t) := by
  unfold validTime; infer_instance

/-- `time.Parse(layout, s)` for one of the three layout constants: run the
chunk interpreter from Go's defaults (year 1, January 1, UTC) and apply the
range checks. -/
def goTimeParse (fmt : GoFormat) (s : List Char) : Option GoTime :=
  match parseChunks (layoutChunks fmt) s zeroGoTime with
  | none => none
  | some t => if validTime t then some t else none

/-- The `switch` of `PTime.UnmarshalJSON` choosing the layout from the raw
token `sdata` (quotes included): `format` starts as `DateFormat`, then
`noDot && noZ` picks the offset layout, `!noDot && !noZ` picks `DateFormat`,
`!noZ && noDot` picks `DateFormatNoDot`, and any other combination leaves the
initial `DateFormat` in place. -/
def selectFormat (sdata : List Char) : GoFormat :=
  let noZ := ¬ sdata.contains 'Z'
  let noDot := ¬ sdata.contains '.'
  if noDot ∧ noZ then .dateFormatWithOffset
  else if ¬ noDot ∧ ¬ noZ then .dateFormat
  else if ¬ noZ ∧ noDot then .dateFormatNoDot
  else .dateFormat

/-- The slice `sdata[1:len(sdata)-1]`, defined for tokens of length at least
two (otherwise Go panics; see `ptimeUnmarshalJSON`). -/
def innerSlice (sdata : List Char) : List Char :=
  (sdata.drop 1).take (sdata.length - 2)

/-- Outcome of a call to `PTime.UnmarshalJSON`: the method returned `nil` or a
parse error — in both cases carrying the receiver's stored time after the
call — or the slice expression panicked. -/
inductive UnmarshalOutcome where
  | ok (t : GoTime)
  | err (t : GoTime)
  | panicked
  deriving DecidableEq, Repr

/-- `PTime.UnmarshalJSON`: `cur` is the time stored in the receiver before the
call, `data` the raw JSON token. The three absent-value literals return `nil`
without touching the receiver; otherwise the layout is selected, the quotes
are sliced off (panicking when `len(sdata) < 2`, since `sdata[1:len(sdata)-1]`
then has out-of-range bounds), and `time.Parse` either errors — leaving the
receiver unchanged — or its result is assigned to the receiver. -/
def ptimeUnmarshalJSON (cur : GoTime) (data : List Char) : UnmarshalOutcome :=
  if data = "null".toList ∨ data = "\"\"".toList ∨ data = "\"0\"".toList then
    .ok cur
  else
    let fmt := selectFormat data
    if data.length < 2 then .panicked
    else
      match goTimeParse fmt (innerSlice data) with
      | none => .err cur
      | some tm => .ok tm

/-- Days from 1970-01-01 to `year-month-day` (proleptic Gregorian), used to
compare instants the way Go's `Time.IsZero` does. The year is shifted by 400 —
exactly 146097 days — so the computation stays in `Nat`. -/
def daysFromCivil (year month day : Nat) : Int :=
  let y := if month ≤ 2 then year + 399 else year + 400
  let era := y / 400
  let yoe := y % 400
  let mp := (month + 9) % 12
  let doy := (153 * mp + 2) / 5 + day - 1
  let doe := yoe * 365 + yoe / 4 - yoe / 100 + doy
  (era * 146097 + doe : Nat) - (146097 + 719468 : Nat)

/-- The absolute instant of a `GoTime` in seconds since the Unix epoch: wall
clock converted to UTC by subtracting the zone offset. -/
def absSec (t : GoTime) : Int :=
  daysFromCivil t.year t.month t.day * 86400
    + (t.hour * 3600 + t.min * 60 + t.sec : Nat) - t.offset

/-- Go's `Time.IsZero`: the instant equals January 1, year 1, 00:00:00 UTC. -/
def goIsZero (t : GoTime) : Bool :=
  absSec t == absSec zeroGoTime && t.nsec == 0

/-- Decimal rendering of `n` left-padded with zeros to width `w`, as Go's
`appendInt` does for the numeric fields of a layout. -/
def padNum (w n : Nat) : String :=
  let s := toString n
  String.mk (List.replicate (w - s.length) '0') ++ s

/-- `t.Format(DateFormat)` with `DateFormat = "2006-01-02T15:04:05.000Z"`:
the wall-clock fields, a fraction of exactly three digits (milliseconds,
trailing zeros kept), and a literal `Z` regardless of the actual offset. -/
def goFormatDateFormat (t : GoTime) : String :=
  padNum 4 t.year ++ "-" ++ padNum 2 t.month ++ "-" ++ padNum 2 t.day ++ "T"
    ++ padNum 2 t.hour ++ ":" ++ padNum 2 t.min ++ ":" ++ padNum 2 t.sec
    ++ "." ++ padNum 3 (t.nsec / 1000000) ++ "Z"

/-- `t.Format(DateFormatNoDot)` with `DateFormatNoDot = "2006-01-02T15:04:05Z"`:
whole seconds, no fractional digits, literal `Z`. -/
def goFormatDateFormatNoDot (t : GoTime) : String :=
  padNum 4 t.year ++ "-" ++ padNum 2 t.month ++ "-" ++ padNum 2 t.day ++ "T"
    ++ padNum 2 t.hour ++ ":" ++ padNum 2 t.min ++ ":" ++ padNum 2 t.sec ++ "Z"

/-- `PTime.String`: empty for a `nil` receiver or a zero time, otherwise the
time formatted with `DateFormat`. -/
def ptimeString (t : Option GoTime) : String :=
  match t with
  | none => ""
  | some tm => if goIsZero tm then "" else goFormatDateFormat tm

/-- `RequestNewTokenBeforeExpiresIn` from `types.go`, in seconds. -/
def RequestNewTokenBeforeExpiresIn : Int := 60

/-- The API response of the `/oauth2/token` endpoint (`TokenResponse` in
`types.go`). -/
structure TokenResponse where
  refreshToken : String
  token : String
  tokenType : String
  expiresIn : Int
  deriving DecidableEq, Repr

/-- The token-cache fields of `Client` (`types.go`): the cached token and the
absolute instant, in seconds, at which it expires. -/
structure TokenCacheState where
  token : Option TokenResponse
  tokenExpiresAt : Int
  deriving DecidableEq, Repr

/-- Result of one get-valid-token operation: the cache state after the call,
the token handed to the caller, and how many refresh requests were issued to
the token endpoint during the call. -/
structure GetTokenResult where
  state : TokenCacheState
  returned : TokenResponse
  refreshCount : Nat
  deriving DecidableEq, Repr

/-- Modelled from the spec: the body of `SendWithAuth` that obtains a valid
token is not among the provided source files, only its callers, the `Client`
fields and the constant `RequestNewTokenBeforeExpiresIn` are. Per spec §4.2,
if no token is cached, or the cached token's expiry is within 60 seconds of
`now`, one credential-grant request is issued, yielding `fresh` with
server-reported lifetime `lifetime`, and the cache is replaced with `fresh`
expiring at `now + lifetime`; otherwise the cached token is returned
unchanged and no request is issued. -/
def getValidToken (st : TokenCacheState) (now lifetime : Int) (fresh : TokenResponse) :
    GetTokenResult :=
  match st.token with
  | none => ⟨⟨some fresh, now + lifetime⟩, fresh, 1⟩
  | some tok =>
    if st.tokenExpiresAt - now < RequestNewTokenBeforeExpiresIn then
      ⟨⟨some fresh, now + lifetime⟩, fresh, 1⟩
    else ⟨st, tok, 0⟩

/-- `HeaderPrefer` from `types.go`. -/
def HeaderPrefer : String := "Prefer"

/-- `HeaderPreferRepresentation` from `types.go`. -/
def HeaderPreferRepresentation : String := "return=representation"

/-- The header map of an `http.Request`, as an association list. -/
structure GoHTTPRequest where
  headers : List (String × String)
  deriving DecidableEq, Repr

/-- `Header.Set`: replace any existing value for the key. -/
def headerSet (hs : List (String × String)) (k v : String) : List (String × String) :=
  (k, v) :: hs.filter (fun p => p.1 != k)

/-- How a call to `Client.CaptureAuthorization` can end: panicking on a `nil`
request dereference, returning the construction error, or handing the request
(with its Prefer header set) on to `SendWithAuth`. -/
inductive CaptureAuthOutcome where
  | nilDeref
  | errReturned (e : String)
  | sent (req : GoHTTPRequest)
  deriving DecidableEq, Repr

/-- `Client.CaptureAuthorization` (`authorization.go`), abstracted over the
result of `c.NewRequest` — a possibly-nil request `reqOpt` and a possibly-nil
error `errOpt`. The source calls
`req.Header.Set(HeaderPrefer, HeaderPreferRepresentation)` before checking
`err`, so a `nil` request is dereferenced before the error check is reached;
only when the request is non-nil does the error check run, and only then is
the request passed to `SendWithAuth`. -/
def captureAuthorization (reqOpt : Option GoHTTPRequest) (errOpt : Option String) :
    CaptureAuthOutcome :=
  match reqOpt with
  | none => .nilDeref
  | some req =>
    let req2 : GoHTTPRequest := ⟨headerSet req.headers HeaderPrefer HeaderPreferRepresentation⟩
    match errOpt with
    | some e => .errReturned e
    | none => .sent req2

/-- The time 2018-08-15 19:14:04.543 UTC, used as a concrete sample value. -/
def sampleTime : GoTime := ⟨2018, 8, 15, 19, 14, 4, 543000000, 0⟩

/-- Claim C1, counterexample: the claim states that `PTime.String` renders
every non-nil, non-zero value with layout B (`DateFormatNoDot`, whole seconds,
no fractional digits); at the non-zero sample value the implication fails,
because `String` renders `"2018-08-15T19:14:04.543Z"` while layout B would
render `"2018-08-15T19:14:04Z"`. -/
theorem claim1_counterexample :
    ¬ (goIsZero sampleTime = false →
        ptimeString (some sampleTime) = goFormatDateFormatNoDot sampleTime) := by
  decide

/-- Claim C1, amended: formatting a `PTime` back to text always uses layout A
(`DateFormat`: exactly three fractional-second digits and the literal UTC
marker `Z`) for every non-nil, non-zero value. -/
theorem claim1_string_uses_dateFormat (t : GoTime) (h : goIsZero t = false) :
    ptimeString (some t) = goFormatDateFormat t := by
  simp [ptimeString, h]

/-- Claim C1, witness for the amended theorem at the sample value. -/
theorem claim1_witness :
    ptimeString (some sampleTime) = goFormatDateFormat sampleTime :=
  claim1_string_uses_dateFormat sampleTime (by decide)

/-- Claim C2, counterexample: the claim states that every token without a `Z`
makes `UnmarshalJSON` select layout C (`DateFormatWithOffset`); the token
`"2018-08-15T12:13:29.5-07:00"` contains no `Z` but contains a dot, so the
`switch` matches no case and the initial `DateFormat` (layout A) is kept. -/
theorem claim2_counterexample :
    ¬ (("\"2018-08-15T12:13:29.5-07:00\"".toList.contains 'Z' = false) →
        selectFormat "\"2018-08-15T12:13:29.5-07:00\"".toList =
          GoFormat.dateFormatWithOffset) := by
  decide

/-- Claim C2, amended: for every token that contains no `Z`, layout C is
selected exactly when the token also contains no dot; with a dot present the
initial layout A (`DateFormat`) is kept. -/
theorem claim2_no_z_selects_offset_layout (s : List Char)
    (hZ : s.contains 'Z' = false) :
    selectFormat s =
      if s.contains '.' = false then GoFormat.dateFormatWithOffset
      else GoFormat.dateFormat := by
  have hz' : ¬ ('Z' ∈ s) := by simpa using hZ
  unfold selectFormat
  cases hd : s.contains '.'
  · have hd' : ¬ ('.' ∈ s) := by simpa using hd
    simp [hz', hd', hd]
  · have hd' : ('.' ∈ s) := by simpa using hd
    simp [hz', hd', hd]

/-- Claim C2, witness for the amended theorem at a dot-free offset token. -/
theorem claim2_witness :
    selectFormat "\"2018-08-15T12:13:29-07:00\"".toList =
      if "\"2018-08-15T12:13:29-07:00\"".toList.contains '.' = false then
        GoFormat.dateFormatWithOffset
      else GoFormat.dateFormat :=
  claim2_no_z_selects_offset_layout _ (by decide)

/-- Claim C3: on a freshly constructed receiver (holding the zero time), each
of the three absent-value tokens — `null`, `""` and `"0"` — returns no error
and leaves the zero/absent time value in the receiver. -/
theorem claim3_absent_tokens_ok :
    ptimeUnmarshalJSON zeroGoTime "null".toList = .ok zeroGoTime ∧
    ptimeUnmarshalJSON zeroGoTime "\"\"".toList = .ok zeroGoTime ∧
    ptimeUnmarshalJSON zeroGoTime "\"0\"".toList = .ok zeroGoTime := by
  decide

/-- Claim C4: a quoted token that is none of the absent-value literals and
whose inner text matches none of the three layouts makes `UnmarshalJSON`
return a parse error, leaving the receiver's stored time unchanged. -/
theorem claim4_malformed_errors_unchanged (cur : GoTime) (data : List Char)
    (hlen : 2 ≤ data.length)
    (hnull : data ≠ "null".toList)
    (hempty : data ≠ "\"\"".toList)
    (hzero : data ≠ "\"0\"".toList)
    (hA : goTimeParse .dateFormat (innerSlice data) = none)
    (hB : goTimeParse .dateFormatNoDot (innerSlice data) = none)
    (hC : goTimeParse .dateFormatWithOffset (innerSlice data) = none) :
    ptimeUnmarshalJSON cur data = .err cur := by
  unfold ptimeUnmarshalJSON
  rw [if_neg (by push_neg; exact ⟨hnull, hempty, hzero⟩)]
  rw [if_neg (by omega)]
  cases hf : selectFormat data <;> simp [hA, hB, hC]

/-- Claim C4, witness: the token `"not-a-date"` errors and preserves the
receiver's previously stored sample time. -/
theorem claim4_witness :
    ptimeUnmarshalJSON sampleTime "\"not-a-date\"".toList = .err sampleTime :=
  claim4_malformed_errors_unchanged sampleTime _ (by decide) (by decide)
    (by decide) (by decide) (by decide) (by decide) (by decide)

/-- Claim C5: the quoted token `"2018-08-15T19:14:04.543Z"` parses without
error to 2018-08-15 19:14:04.543 UTC (543000000 nanoseconds, offset 0). -/
theorem claim5_fractional_utc :
    ptimeUnmarshalJSON zeroGoTime "\"2018-08-15T19:14:04.543Z\"".toList =
      .ok (⟨2018, 8, 15, 19, 14, 4, 543000000, 0⟩ : GoTime) := by
  decide

/-- Claim C6: the quoted token `"2018-08-15T12:13:29-07:00"` parses without
error to a value whose UTC offset is exactly -25200 seconds (-7 hours). -/
theorem claim6_numeric_offset :
    ptimeUnmarshalJSON zeroGoTime "\"2018-08-15T12:13:29-07:00\"".toList =
      .ok (⟨2018, 8, 15, 12, 13, 29, 0, -25200⟩ : GoTime) := by
  decide

/-- Claim C7: with a token cached, if its expiry is less than 60 seconds away
the get-valid-token operation issues exactly one refresh request before
returning; if the expiry is more than 60 seconds away, no refresh request is
issued, the cached token is returned, and the cache is unchanged. -/
theorem claim7_token_cache_refresh (st : TokenCacheState) (now lifetime : Int)
    (fresh tok : TokenResponse) (htok : st.token = some tok) :
    (st.tokenExpiresAt - now < 60 →
      (getValidToken st now lifetime fresh).refreshCount = 1) ∧
    (60 < st.tokenExpiresAt - now →
      (getValidToken st now lifetime fresh).refreshCount = 0 ∧
      (getValidToken st now lifetime fresh).returned = tok ∧
      (getValidToken st now lifetime fresh).state = st) := by
  constructor
  · intro hlt
    simp only [getValidToken, RequestNewTokenBeforeExpiresIn, htok]
    rw [if_pos hlt]
  · intro hgt
    simp only [getValidToken, RequestNewTokenBeforeExpiresIn, htok]
    rw [if_neg (by omega)]
    exact ⟨rfl, rfl, rfl⟩

/-- Claim C7, witness: a token expiring 10 seconds from now triggers one
refresh, and a token expiring 3600 seconds from now triggers none. -/
theorem claim7_witness :
    ((getValidToken ⟨some ⟨"", "a", "Bearer", 100⟩, 110⟩ 100 900
        ⟨"", "b", "Bearer", 900⟩).refreshCount = 1) ∧
    ((getValidToken ⟨some ⟨"", "a", "Bearer", 100⟩, 3700⟩ 100 900
        ⟨"", "b", "Bearer", 900⟩).refreshCount = 0 ∧
      (getValidToken ⟨some ⟨"", "a", "Bearer", 100⟩, 3700⟩ 100 900
        ⟨"", "b", "Bearer", 900⟩).returned = ⟨"", "a", "Bearer", 100⟩ ∧
      (getValidToken ⟨some ⟨"", "a", "Bearer", 100⟩, 3700⟩ 100 900
        ⟨"", "b", "Bearer", 900⟩).state = ⟨some ⟨"", "a", "Bearer", 100⟩, 3700⟩) :=
  ⟨(claim7_token_cache_refresh _ 100 900 _ _ rfl).1 (by decide),
   (claim7_token_cache_refresh _ 100 900 _ _ rfl).2 (by decide)⟩

/-- Claim C8: any raw token shorter than two bytes — such as the bare number
`5` — is not an absent-value literal, so control reaches the slice
`sdata[1:len(sdata)-1]`, whose bounds are then out of range, and the method
panics instead of returning an error. -/
theorem claim8_short_token_panics (cur : GoTime) (data : List Char)
    (h : data.length < 2) :
    ptimeUnmarshalJSON cur data = .panicked := by
  have hnull : data ≠ "null".toList := fun e => absurd (e ▸ h) (by decide)
  have hempty : data ≠ "\"\"".toList := fun e => absurd (e ▸ h) (by decide)
  have hzero : data ≠ "\"0\"".toList := fun e => absurd (e ▸ h) (by decide)
  unfold ptimeUnmarshalJSON
  rw [if_neg (by push_neg; exact ⟨hnull, hempty, hzero⟩)]
  rw [if_pos h]

/-- Claim C8, witness: the bare token `5` panics. -/
theorem claim8_witness :
    ptimeUnmarshalJSON zeroGoTime ['5'] = .panicked :=
  claim8_short_token_panics zeroGoTime ['5'] (by decide)

/-- Claim C9: a receiver already holding a non-zero time keeps it — each of
the three absent-value tokens returns `nil` without writing the receiver. -/
theorem claim9_absent_preserves_receiver (cur : GoTime)
    (h : goIsZero cur = false) :
    ptimeUnmarshalJSON cur "null".toList = .ok cur ∧
    ptimeUnmarshalJSON cur "\"\"".toList = .ok cur ∧
    ptimeUnmarshalJSON cur "\"0\"".toList = .ok cur := by
  refine ⟨?_, ?_, ?_⟩
  · unfold ptimeUnmarshalJSON; rw [if_pos (Or.inl rfl)]
  · unfold ptimeUnmarshalJSON; rw [if_pos (Or.inr (Or.inl rfl))]
  · unfold ptimeUnmarshalJSON; rw [if_pos (Or.inr (Or.inr rfl))]

/-- Claim C9, witness: the non-zero sample time is preserved across all three
absent-value tokens. -/
theorem claim9_witness :
    ptimeUnmarshalJSON sampleTime "null".toList = .ok sampleTime ∧
    ptimeUnmarshalJSON sampleTime "\"\"".toList = .ok sampleTime ∧
    ptimeUnmarshalJSON sampleTime "\"0\"".toList = .ok sampleTime :=
  claim9_absent_preserves_receiver sampleTime (by decide)

/-- Claim C10: when `NewRequest` yields a nil request together with an error,
`CaptureAuthorization` dereferences the nil request at `req.Header.Set` —
which runs before the error check — instead of returning the error. -/
theorem claim10_nil_request_deref (e : String) :
    captureAuthorization none (some e) = .nilDeref ∧
    captureAuthorization none (some e) ≠ .errReturned e :=
  ⟨rfl, fun h => CaptureAuthOutcome.noConfusion h⟩

end Paypal


